import Mathlib

/-!
Verification of the buffer module of the `linear_model_allen` audio-buffer
library (`src/buffer.rs`), shallowly embedded in Lean 4.

Every operation of the Rust module is modelled as a pure function that
returns the list of externally observable events it performs (lock
acquisitions and releases, capability queries, native AL calls, error-register
checks, diagnostics) together with its outcome (a value, a typed error, or a
panic).  The native layer is modelled by explicit oracle arguments: the
context's capability set, the contents of the error register drained at the
next check, and the values the native getters would write.  Lock events follow
Rust scope-based drop semantics for the `_lock` guard bound in each function.
-/

namespace Allen

/-- Native AL wire-format constants used by `buffer.rs`.  They come from the
external `oal_sys_windows` bindings; here they are modelled as an enumeration
of distinct constants (they are pairwise distinct integer codes in the
bindings). -/
inductive ALFormat where
  | MONO8
  | MONO16
  | STEREO8
  | STEREO16
  | MONO_FLOAT32
  | STEREO_FLOAT32
  | MONO_DOUBLE_EXT
  | STEREO_DOUBLE_EXT
deriving DecidableEq, BEq, Repr

/-- The `AL_LOOP_POINTS_SOFT` parameter code of the `AL_SOFT_loop_points`
extension, from the external bindings. -/
def AL_LOOP_POINTS_SOFT : Int := 0x2015

/-- The `Channels` enum of `buffer.rs`: `Mono`, `Stereo`, with
`FromPrimitive`/`ToPrimitive` discriminants 0 and 1. -/
inductive Channels where
  | Mono
  | Stereo
deriving DecidableEq, BEq, Repr

/-- The derived `FromPrimitive::from_i32` for `Channels` (discriminants are
the default ones: `Mono = 0`, `Stereo = 1`; any other integer decodes to
`None`). -/
def Channels.from_i32 : Int → Option Channels
  | 0 => some Channels.Mono
  | 1 => some Channels.Stereo
  | _ => none

/-- A borrowed Rust slice, abstracted to its base address and element count.
`buffer.rs` only ever uses `as_ptr()` and `len()` of the payload slices, so
element values play no role in the embedded code. -/
structure Slice where
  addr : Nat
  len : Nat
deriving DecidableEq, Repr

/-- The `BufferData` enum of `buffer.rs`: a tagged borrowed view over samples
in one of four encodings. -/
inductive BufferData where
  | I8 (s : Slice)
  | I16 (s : Slice)
  | F32 (s : Slice)
  | F64 (s : Slice)
deriving DecidableEq, Repr

/-- `BufferData::ptr`: the base pointer of the payload slice, cast to
`*const c_void`. -/
def BufferData.ptr : BufferData → Nat
  | BufferData.I8 s => s.addr
  | BufferData.I16 s => s.addr
  | BufferData.F32 s => s.addr
  | BufferData.F64 s => s.addr

/-- `BufferData::size`: `size_of::<T>() * data.len()` for the payload's
element type (`size_of` is 1, 2, 4, 8 bytes respectively). -/
def BufferData.size : BufferData → Nat
  | BufferData.I8 s => 1 * s.len
  | BufferData.I16 s => 2 * s.len
  | BufferData.F32 s => 4 * s.len
  | BufferData.F64 s => 8 * s.len

/-- Typed errors of the crate's `AllenResult`, as far as the buffer module
can produce them: an error translated from the native error register by
`check_al_error`, or a missing-extension error from `check_al_extension`.
Native error codes are abstracted to their numeric value. -/
inductive AllenError where
  | al (code : Nat)
  | missingExtension (name : String)
deriving DecidableEq, Repr

/-- The result of running an embedded Rust function: a normal value, an
`Err` of the crate's error type, or a Rust panic (which unwinds and returns
no value at all). -/
inductive Outcome (α : Type) where
  | ok (v : α)
  | err (e : AllenError)
  | panics (msg : String)
deriving DecidableEq, Repr

/-- Externally observable events of the buffer module, in program order:
current-context lock acquisition/release, capability queries, native AL
calls, error-register checks, and the drop diagnostic. -/
inductive Event where
  | acquireLock
  | releaseLock
  | extensionQuery (name : String)
  | checkError
  | alGenBuffers (n : Nat)
  | alDeleteBuffers (n : Nat) (handle : Nat)
  | alBufferData (handle : Nat) (format : ALFormat) (ptr : Nat) (size : Int) (rate : Int)
  | alGetBufferf (handle : Nat) (param : Int)
  | alBufferf (handle : Nat) (param : Int)
  | alGetBuffer3f (handle : Nat) (param : Int)
  | alBuffer3f (handle : Nat) (param : Int)
  | alGetBufferi (handle : Nat) (param : Int)
  | alBufferi (handle : Nat) (param : Int) (value : Int)
  | alGetBufferiv (handle : Nat) (param : Int)
  | alBufferiv (handle : Nat) (param : Int) (v0 v1 : Int)
  | printWarning
deriving DecidableEq, BEq, Repr

/-- Modelled from the spec: `check_al_error` (crate root, not under `src/`)
drains the native error register and returns a typed error describing the
last failure, or success if the register is clear (spec §6).  The register
contents drained at this check are the oracle argument `reg`. -/
def check_al_error (reg : Option Nat) : List Event × Outcome Unit :=
  ([Event.checkError],
    match reg with
    | some c => Outcome.err (AllenError.al c)
    | none => Outcome.ok ())

/-- Modelled from the spec: `check_al_extension` (crate root, not under
`src/`) queries the context's capability set for an extension name and fails
with a missing-extension error if it is absent, performing no native call
(spec §4.3 step 3, §6 `has_extension`). -/
def check_al_extension (exts : List String) (name : String) :
    List Event × Outcome Unit :=
  ([Event.extensionQuery name],
    if name ∈ exts then Outcome.ok () else Outcome.err (AllenError.missingExtension name))

/-- The `Buffer` struct: a native handle plus the shared owning context
(the context is abstracted to an identity number; its `make_current` lock is
modelled by the `acquireLock`/`releaseLock` events). -/
structure Buffer where
  handle : Nat
  context : Nat
deriving DecidableEq, Repr

/-- `Buffer::new`.  The `_lock` guard is bound inside the `unsafe` block, so
by Rust scope-based drop it is released at the end of that block — before
`check_al_error` runs.  `genHandle` is the handle the native `alGenBuffers`
writes; `reg` is the error-register contents drained at the check. -/
def Buffer.new (context : Nat) (genHandle : Nat) (reg : Option Nat) :
    List Event × Outcome Buffer :=
  let callEvents := [Event.acquireLock, Event.alGenBuffers 1, Event.releaseLock]
  let chk := check_al_error reg
  (callEvents ++ chk.fst,
    match chk.snd with
    | Outcome.ok _ => Outcome.ok { handle := genHandle, context := context }
    | Outcome.err e => Outcome.err e
    | Outcome.panics m => Outcome.panics m)

/-- The format-resolution `match` inside `Buffer::data` (buffer.rs lines
183–206), verbatim: integer encodings resolve directly (note the 8-bit
stereo arm resolves to `AL_FORMAT_MONO16`), float encodings first check
their extension (`AL_EXT_float32`, `AL_double`) and propagate its error. -/
def Buffer.resolve_format (exts : List String) (d : BufferData) (channels : Channels) :
    List Event × Outcome ALFormat :=
  match d with
  | BufferData.I8 _ =>
      ([], Outcome.ok (match channels with
        | Channels.Mono => ALFormat.MONO8
        | Channels.Stereo => ALFormat.MONO16))
  | BufferData.I16 _ =>
      ([], Outcome.ok (match channels with
        | Channels.Mono => ALFormat.MONO16
        | Channels.Stereo => ALFormat.STEREO16))
  | BufferData.F32 _ =>
      let c := check_al_extension exts "AL_EXT_float32"
      (c.fst,
        match c.snd with
        | Outcome.ok _ => Outcome.ok (match channels with
            | Channels.Mono => ALFormat.MONO_FLOAT32
            | Channels.Stereo => ALFormat.STEREO_FLOAT32)
        | Outcome.err e => Outcome.err e
        | Outcome.panics m => Outcome.panics m)
  | BufferData.F64 _ =>
      let c := check_al_extension exts "AL_double"
      (c.fst,
        match c.snd with
        | Outcome.ok _ => Outcome.ok (match channels with
            | Channels.Mono => ALFormat.MONO_DOUBLE_EXT
            | Channels.Stereo => ALFormat.STEREO_DOUBLE_EXT)
        | Outcome.err e => Outcome.err e
        | Outcome.panics m => Outcome.panics m)

/-- The Rust `usize`-to-`i32` `as` cast used for `data.size() as i32`:
truncation to 32 bits, reinterpreted as signed. -/
def i32_of_usize (n : Nat) : Int :=
  let m : Nat := n % 2 ^ 32
  if m < 2 ^ 31 then (m : Int) else (m : Int) - 2 ^ 32

/-- `Buffer::data`.  The `_lock` guard is bound at the top of the function
body, so it is held until function exit: it is released after the tail
`check_al_error()` on the success path, and on the early `?` return of a
failed extension check.  `reg` is the error-register contents drained at the
check after `alBufferData`. -/
def Buffer.data (self : Buffer) (exts : List String) (reg : Option Nat)
    (d : BufferData) (channels : Channels) (sample_rate : Int) :
    List Event × Outcome Unit :=
  let fmt := Buffer.resolve_format exts d channels
  match fmt.snd with
  | Outcome.err e =>
      (Event.acquireLock :: fmt.fst ++ [Event.releaseLock], Outcome.err e)
  | Outcome.panics m =>
      (Event.acquireLock :: fmt.fst ++ [Event.releaseLock], Outcome.panics m)
  | Outcome.ok format =>
      let chk := check_al_error reg
      (Event.acquireLock :: fmt.fst
         ++ [Event.alBufferData self.handle format d.ptr (i32_of_usize d.size) sample_rate]
         ++ chk.fst ++ [Event.releaseLock],
       chk.snd)

/-- `PropertiesContainer<f32>::get` for `Buffer`.  `fval` is the (opaque,
bit-pattern) float the native `alGetBufferf` writes; `reg` the register
drained at the check. -/
def Buffer.get_f32 (self : Buffer) (reg : Option Nat) (param : Int) (fval : Nat) :
    List Event × Outcome Nat :=
  let chk := check_al_error reg
  ([Event.acquireLock, Event.alGetBufferf self.handle param] ++ chk.fst ++ [Event.releaseLock],
    match chk.snd with
    | Outcome.ok _ => Outcome.ok fval
    | Outcome.err e => Outcome.err e
    | Outcome.panics m => Outcome.panics m)

/-- `PropertiesContainer<f32>::set` for `Buffer` (the written float value is
opaque and not recorded). -/
def Buffer.set_f32 (self : Buffer) (reg : Option Nat) (param : Int) :
    List Event × Outcome Unit :=
  let chk := check_al_error reg
  ([Event.acquireLock, Event.alBufferf self.handle param] ++ chk.fst ++ [Event.releaseLock],
    chk.snd)

/-- `PropertiesContainer<[f32; 3]>::get` for `Buffer`. -/
def Buffer.get_f32x3 (self : Buffer) (reg : Option Nat) (param : Int)
    (fvals : Nat × Nat × Nat) : List Event × Outcome (Nat × Nat × Nat) :=
  let chk := check_al_error reg
  ([Event.acquireLock, Event.alGetBuffer3f self.handle param] ++ chk.fst ++ [Event.releaseLock],
    match chk.snd with
    | Outcome.ok _ => Outcome.ok fvals
    | Outcome.err e => Outcome.err e
    | Outcome.panics m => Outcome.panics m)

/-- `PropertiesContainer<[f32; 3]>::set` for `Buffer`. -/
def Buffer.set_f32x3 (self : Buffer) (reg : Option Nat) (param : Int) :
    List Event × Outcome Unit :=
  let chk := check_al_error reg
  ([Event.acquireLock, Event.alBuffer3f self.handle param] ++ chk.fst ++ [Event.releaseLock],
    chk.snd)

/-- `PropertiesContainer<i32>::get` for `Buffer`.  `ival` is the integer the
native `alGetBufferi` writes. -/
def Buffer.get_i32 (self : Buffer) (reg : Option Nat) (param : Int) (ival : Int) :
    List Event × Outcome Int :=
  let chk := check_al_error reg
  ([Event.acquireLock, Event.alGetBufferi self.handle param] ++ chk.fst ++ [Event.releaseLock],
    match chk.snd with
    | Outcome.ok _ => Outcome.ok ival
    | Outcome.err e => Outcome.err e
    | Outcome.panics m => Outcome.panics m)

/-- `PropertiesContainer<i32>::set` for `Buffer`. -/
def Buffer.set_i32 (self : Buffer) (reg : Option Nat) (param : Int) (value : Int) :
    List Event × Outcome Unit :=
  let chk := check_al_error reg
  ([Event.acquireLock, Event.alBufferi self.handle param value] ++ chk.fst ++ [Event.releaseLock],
    chk.snd)

/-- `PropertiesContainer<Channels>::get` for `Buffer`: delegates to the
`i32` instance and decodes, with `FromPrimitive::from_i32(..).unwrap()` —
a failed decode is a Rust panic. -/
def Buffer.get_channels (self : Buffer) (reg : Option Nat) (param : Int) (ival : Int) :
    List Event × Outcome Channels :=
  let r := Buffer.get_i32 self reg param ival
  (r.fst,
    match r.snd with
    | Outcome.ok n =>
        match Channels.from_i32 n with
        | some c => Outcome.ok c
        | none => Outcome.panics "unwrap on None"
    | Outcome.err e => Outcome.err e
    | Outcome.panics m => Outcome.panics m)

/-- `PropertiesContainer<Channels>::set` for `Buffer`: the body is
`unimplemented!()` — an unconditional panic, with no event performed. -/
def Buffer.set_channels (_self : Buffer) (_param : Int) (_value : Channels) :
    List Event × Outcome Unit :=
  ([], Outcome.panics "not implemented")

/-- `Buffer::loop_points`: extension check first (before the lock), then the
native vector get of the two loop-point integers under the lock, then the
error check.  `v0`, `v1` are the two integers `alGetBufferiv` writes. -/
def Buffer.loop_points (self : Buffer) (exts : List String) (reg : Option Nat)
    (v0 v1 : Int) : List Event × Outcome (Int × Int) :=
  let c := check_al_extension exts "AL_SOFT_loop_points"
  match c.snd with
  | Outcome.err e => (c.fst, Outcome.err e)
  | Outcome.panics m => (c.fst, Outcome.panics m)
  | Outcome.ok _ =>
      let chk := check_al_error reg
      (c.fst ++ [Event.acquireLock, Event.alGetBufferiv self.handle AL_LOOP_POINTS_SOFT]
         ++ chk.fst ++ [Event.releaseLock],
        match chk.snd with
        | Outcome.ok _ => Outcome.ok (v0, v1)
        | Outcome.err e => Outcome.err e
        | Outcome.panics m => Outcome.panics m)

/-- `Buffer::set_loop_points`: extension check first (before the lock), then
the native vector set of the two loop-point integers under the lock, then
the error check. -/
def Buffer.set_loop_points (self : Buffer) (exts : List String) (reg : Option Nat)
    (v0 v1 : Int) : List Event × Outcome Unit :=
  let c := check_al_extension exts "AL_SOFT_loop_points"
  match c.snd with
  | Outcome.err e => (c.fst, Outcome.err e)
  | Outcome.panics m => (c.fst, Outcome.panics m)
  | Outcome.ok _ =>
      let chk := check_al_error reg
      (c.fst ++ [Event.acquireLock, Event.alBufferiv self.handle AL_LOOP_POINTS_SOFT v0 v1]
         ++ chk.fst ++ [Event.releaseLock],
        chk.snd)

/-- `Drop for Buffer`: one native release of the owned handle, then the
error check; a failure is printed as a warning, never propagated (the
return type is `Unit`, not an `Outcome`: the destructor cannot fail). -/
def Buffer.drop (self : Buffer) (reg : Option Nat) : List Event × Unit :=
  let chk := check_al_error reg
  (match chk.snd with
    | Outcome.ok _ => [Event.alDeleteBuffers 1 self.handle] ++ chk.fst
    | _ => [Event.alDeleteBuffers 1 self.handle] ++ chk.fst ++ [Event.printWarning],
   ())

/-- Events that the spec requires to happen under the current-context lock:
every native AL call and every error-register check (spec §5). -/
def Event.needsLock : Event → Bool
  | Event.acquireLock => false
  | Event.releaseLock => false
  | Event.extensionQuery _ => false
  | Event.printWarning => false
  | _ => true

/-- Walks a trace tracking lock depth; `true` iff every event that needs
the lock occurs at positive lock depth. -/
def underLockOk : Nat → List Event → Bool
  | _, [] => true
  | d, Event.acquireLock :: rest => underLockOk (d + 1) rest
  | d, Event.releaseLock :: rest => underLockOk (d - 1) rest
  | d, e :: rest => (!e.needsLock || decide (0 < d)) && underLockOk d rest

/-- Projects a trace to the argument tuples of its native upload calls. -/
def uploadArgs (tr : List Event) : List (Nat × ALFormat × Nat × Int × Int) :=
  tr.filterMap fun e =>
    match e with
    | Event.alBufferData h f p s r => some (h, f, p, s, r)
    | _ => none

/-- Projects a trace to the format codes of its native upload calls. -/
def uploadFormats (tr : List Event) : List ALFormat :=
  (uploadArgs tr).map fun a => a.2.1

/-- Projects a trace to the requested counts of its handle-allocation calls. -/
def genRequests (tr : List Event) : List Nat :=
  tr.filterMap fun e =>
    match e with
    | Event.alGenBuffers n => some n
    | _ => none

/-- Projects a trace to the argument pairs of its handle-release calls. -/
def deleteRequests (tr : List Event) : List (Nat × Nat) :=
  tr.filterMap fun e =>
    match e with
    | Event.alDeleteBuffers n h => some (n, h)
    | _ => none

/-- `true` iff the event is a capability (extension) query. -/
def Event.isExtQuery : Event → Bool
  | Event.extensionQuery _ => true
  | _ => false

/-- `true` iff the outcome is a missing-extension error. -/
def Outcome.isMissingExt {α : Type} : Outcome α → Bool
  | Outcome.err (AllenError.missingExtension _) => true
  | _ => false

/-- Element width in bytes of a payload's encoding, as given in the claim:
1 for I8, 2 for I16, 4 for F32, 8 for F64. -/
def elemWidth : BufferData → Nat
  | BufferData.I8 _ => 1
  | BufferData.I16 _ => 2
  | BufferData.F32 _ => 4
  | BufferData.F64 _ => 8

/-- Element count of a payload. -/
def elemCount : BufferData → Nat
  | BufferData.I8 s => s.len
  | BufferData.I16 s => s.len
  | BufferData.F32 s => s.len
  | BufferData.F64 s => s.len

/-- Claim C1, counterexample: on an 8-bit stereo payload, `data()` passes
`AL_FORMAT_MONO16` to the native upload call, not the `STEREO16` code
required by the claim's table (buffer.rs line 186 reads
`Channels::Stereo => AL_FORMAT_MONO16`). -/
theorem C1_counterexample :
    uploadFormats (Buffer.data ⟨7, 1⟩ [] none (BufferData.I8 ⟨100, 4⟩)
        Channels.Stereo 44100).fst = [ALFormat.MONO16]
  ∧ (uploadFormats (Buffer.data ⟨7, 1⟩ [] none (BufferData.I8 ⟨100, 4⟩)
        Channels.Stereo 44100).fst).contains ALFormat.STEREO16 = false := by
  decide

/-- Claim C1 (amended): for every supported (encoding, channel) pair,
`data()` resolves I8/Mono to MONO8, I8/Stereo to MONO16 (not STEREO16),
I16/Mono to MONO16, I16/Stereo to STEREO16, F32/Mono to MONO_FLOAT32,
F32/Stereo to STEREO_FLOAT32, F64/Mono to MONO_DOUBLE_EXT, F64/Stereo to
STEREO_DOUBLE_EXT, and passes exactly that code to the native upload call
(the float rows assume their extensions are present, otherwise no upload
happens). -/
theorem C1_format_table (b : Buffer) (exts : List String) (reg : Option Nat)
    (s : Slice) (rate : Int)
    (hf : "AL_EXT_float32" ∈ exts) (hd : "AL_double" ∈ exts) :
    uploadFormats (Buffer.data b exts reg (BufferData.I8 s) Channels.Mono rate).fst
      = [ALFormat.MONO8]
  ∧ uploadFormats (Buffer.data b exts reg (BufferData.I8 s) Channels.Stereo rate).fst
      = [ALFormat.MONO16]
  ∧ uploadFormats (Buffer.data b exts reg (BufferData.I16 s) Channels.Mono rate).fst
      = [ALFormat.MONO16]
  ∧ uploadFormats (Buffer.data b exts reg (BufferData.I16 s) Channels.Stereo rate).fst
      = [ALFormat.STEREO16]
  ∧ uploadFormats (Buffer.data b exts reg (BufferData.F32 s) Channels.Mono rate).fst
      = [ALFormat.MONO_FLOAT32]
  ∧ uploadFormats (Buffer.data b exts reg (BufferData.F32 s) Channels.Stereo rate).fst
      = [ALFormat.STEREO_FLOAT32]
  ∧ uploadFormats (Buffer.data b exts reg (BufferData.F64 s) Channels.Mono rate).fst
      = [ALFormat.MONO_DOUBLE_EXT]
  ∧ uploadFormats (Buffer.data b exts reg (BufferData.F64 s) Channels.Stereo rate).fst
      = [ALFormat.STEREO_DOUBLE_EXT] := by
  refine ⟨?_, ?_, ?_, ?_, ?_, ?_, ?_, ?_⟩ <;>
    simp [Buffer.data, Buffer.resolve_format, check_al_extension, check_al_error,
      uploadFormats, uploadArgs, hf, hd]

/-- Claim C1 (amended), witness at a concrete input. -/
theorem C1_format_table_witness :
    uploadFormats (Buffer.data ⟨7, 1⟩ ["AL_EXT_float32", "AL_double"] none
        (BufferData.I8 ⟨100, 4⟩) Channels.Mono 44100).fst = [ALFormat.MONO8]
  ∧ uploadFormats (Buffer.data ⟨7, 1⟩ ["AL_EXT_float32", "AL_double"] none
        (BufferData.I8 ⟨100, 4⟩) Channels.Stereo 44100).fst = [ALFormat.MONO16]
  ∧ uploadFormats (Buffer.data ⟨7, 1⟩ ["AL_EXT_float32", "AL_double"] none
        (BufferData.I16 ⟨100, 4⟩) Channels.Mono 44100).fst = [ALFormat.MONO16]
  ∧ uploadFormats (Buffer.data ⟨7, 1⟩ ["AL_EXT_float32", "AL_double"] none
        (BufferData.I16 ⟨100, 4⟩) Channels.Stereo 44100).fst = [ALFormat.STEREO16]
  ∧ uploadFormats (Buffer.data ⟨7, 1⟩ ["AL_EXT_float32", "AL_double"] none
        (BufferData.F32 ⟨100, 4⟩) Channels.Mono 44100).fst = [ALFormat.MONO_FLOAT32]
  ∧ uploadFormats (Buffer.data ⟨7, 1⟩ ["AL_EXT_float32", "AL_double"] none
        (BufferData.F32 ⟨100, 4⟩) Channels.Stereo 44100).fst = [ALFormat.STEREO_FLOAT32]
  ∧ uploadFormats (Buffer.data ⟨7, 1⟩ ["AL_EXT_float32", "AL_double"] none
        (BufferData.F64 ⟨100, 4⟩) Channels.Mono 44100).fst = [ALFormat.MONO_DOUBLE_EXT]
  ∧ uploadFormats (Buffer.data ⟨7, 1⟩ ["AL_EXT_float32", "AL_double"] none
        (BufferData.F64 ⟨100, 4⟩) Channels.Stereo 44100).fst = [ALFormat.STEREO_DOUBLE_EXT] :=
  C1_format_table ⟨7, 1⟩ ["AL_EXT_float32", "AL_double"] none ⟨100, 4⟩ 44100
    (by decide) (by decide)

/-- Claim C2, counterexample: `PropertiesContainer::<Channels>::set` on a
`Buffer` does not return an unsupported-operation error — it panics (the
body is `unimplemented!()`), contradicting the claim that it does not
panic. -/
theorem C2_counterexample :
    (Buffer.set_channels ⟨7, 1⟩ 0x104 Channels.Mono).snd
      = Outcome.panics "not implemented" := by
  decide

/-- Claim C2 (amended): for every parameter identifier and every `Channels`
value, `PropertiesContainer::<Channels>::set` on a `Buffer` panics via
`unimplemented!()` and issues no native call (its event trace is empty). -/
theorem C2_set_channels_panics (b : Buffer) (param : Int) (v : Channels) :
    Buffer.set_channels b param v = ([], Outcome.panics "not implemented") := by
  rfl

/-- Claim C3: the claim requires every Buffer operation that issues a native
call to hold the current-context lock through the native call and the
immediately following error-register check.  This fails for `Buffer::new`:
its `_lock` guard is scoped to the `unsafe` block and is dropped before
`check_al_error` runs, so the error check happens at lock depth 0 (first
conjunct).  Every other listed operation does satisfy the property
(remaining conjuncts). -/
theorem C3_lock_scope (b : Buffer) (exts : List String) (reg : Option Nat)
    (d : BufferData) (ch : Channels) (rate p value v0 v1 ival : Int)
    (fval : Nat) (fvals : Nat × Nat × Nat) :
    underLockOk 0 (Buffer.new b.context b.handle reg).fst = false
  ∧ underLockOk 0 (Buffer.data b exts reg d ch rate).fst = true
  ∧ underLockOk 0 (Buffer.get_f32 b reg p fval).fst = true
  ∧ underLockOk 0 (Buffer.set_f32 b reg p).fst = true
  ∧ underLockOk 0 (Buffer.get_f32x3 b reg p fvals).fst = true
  ∧ underLockOk 0 (Buffer.set_f32x3 b reg p).fst = true
  ∧ underLockOk 0 (Buffer.get_i32 b reg p ival).fst = true
  ∧ underLockOk 0 (Buffer.set_i32 b reg p value).fst = true
  ∧ underLockOk 0 (Buffer.get_channels b reg p ival).fst = true
  ∧ underLockOk 0 (Buffer.set_channels b p ch).fst = true
  ∧ underLockOk 0 (Buffer.loop_points b exts reg v0 v1).fst = true
  ∧ underLockOk 0 (Buffer.set_loop_points b exts reg v0 v1).fst = true := by
  refine ⟨?_, ?_, ?_, ?_, ?_, ?_, ?_, ?_, ?_, ?_, ?_, ?_⟩
  · simp [Buffer.new, check_al_error, underLockOk, Event.needsLock]
  · cases d with
    | I8 s =>
        cases ch <;>
          simp [Buffer.data, Buffer.resolve_format, check_al_error,
            check_al_extension, underLockOk, Event.needsLock]
    | I16 s =>
        cases ch <;>
          simp [Buffer.data, Buffer.resolve_format, check_al_error,
            check_al_extension, underLockOk, Event.needsLock]
    | F32 s =>
        by_cases hm : "AL_EXT_float32" ∈ exts <;>
          simp [Buffer.data, Buffer.resolve_format, check_al_error,
            check_al_extension, underLockOk, Event.needsLock, hm]
    | F64 s =>
        by_cases hm : "AL_double" ∈ exts <;>
          simp [Buffer.data, Buffer.resolve_format, check_al_error,
            check_al_extension, underLockOk, Event.needsLock, hm]
  · simp [Buffer.get_f32, check_al_error, underLockOk, Event.needsLock]
  · simp [Buffer.set_f32, check_al_error, underLockOk, Event.needsLock]
  · simp [Buffer.get_f32x3, check_al_error, underLockOk, Event.needsLock]
  · simp [Buffer.set_f32x3, check_al_error, underLockOk, Event.needsLock]
  · simp [Buffer.get_i32, check_al_error, underLockOk, Event.needsLock]
  · simp [Buffer.set_i32, check_al_error, underLockOk, Event.needsLock]
  · simp [Buffer.get_channels, Buffer.get_i32, check_al_error, underLockOk,
      Event.needsLock]
  · simp [Buffer.set_channels, underLockOk]
  · by_cases hm : "AL_SOFT_loop_points" ∈ exts <;>
      simp [Buffer.loop_points, check_al_error, check_al_extension,
        underLockOk, Event.needsLock, hm]
  · by_cases hm : "AL_SOFT_loop_points" ∈ exts <;>
      simp [Buffer.set_loop_points, check_al_error, check_al_extension,
        underLockOk, Event.needsLock, hm]

/-- Claim C4: with an F32 payload and "AL_EXT_float32" absent, or an F64
payload and "AL_double" absent, `data()` returns a missing-extension error
and its trace holds no native upload call (only the lock events and the
failed capability query). -/
theorem C4_float_ext_gate (b : Buffer) (exts : List String) (reg : Option Nat)
    (s : Slice) (ch : Channels) (rate : Int) :
    ("AL_EXT_float32" ∉ exts →
      Buffer.data b exts reg (BufferData.F32 s) ch rate
        = ([Event.acquireLock, Event.extensionQuery "AL_EXT_float32", Event.releaseLock],
           Outcome.err (AllenError.missingExtension "AL_EXT_float32")))
  ∧ ("AL_double" ∉ exts →
      Buffer.data b exts reg (BufferData.F64 s) ch rate
        = ([Event.acquireLock, Event.extensionQuery "AL_double", Event.releaseLock],
           Outcome.err (AllenError.missingExtension "AL_double"))) := by
  constructor <;> intro h <;>
    simp [Buffer.data, Buffer.resolve_format, check_al_extension, h]

/-- Claim C4, witness at a concrete input with an empty capability set. -/
theorem C4_float_ext_gate_witness :
    Buffer.data ⟨7, 1⟩ [] none (BufferData.F32 ⟨100, 4⟩) Channels.Mono 44100
      = ([Event.acquireLock, Event.extensionQuery "AL_EXT_float32", Event.releaseLock],
         Outcome.err (AllenError.missingExtension "AL_EXT_float32"))
  ∧ Buffer.data ⟨7, 1⟩ [] none (BufferData.F64 ⟨100, 4⟩) Channels.Mono 44100
      = ([Event.acquireLock, Event.extensionQuery "AL_double", Event.releaseLock],
         Outcome.err (AllenError.missingExtension "AL_double")) :=
  ⟨(C4_float_ext_gate ⟨7, 1⟩ [] none ⟨100, 4⟩ Channels.Mono 44100).1 (by decide),
   (C4_float_ext_gate ⟨7, 1⟩ [] none ⟨100, 4⟩ Channels.Mono 44100).2 (by decide)⟩

/-- Claim C5: when "AL_SOFT_loop_points" is absent, `loop_points` and
`set_loop_points` return a missing-extension error with a trace holding only
the capability query — no lock acquisition and no native call.  When it is
present, each issues the native vector get/set for `AL_LOOP_POINTS_SOFT`
under the lock, followed by the error check; on a clear register
`loop_points` returns the two integers the native call wrote. -/
theorem C5_loop_points_gate (b : Buffer) (exts : List String) (reg : Option Nat)
    (v0 v1 : Int) :
    ("AL_SOFT_loop_points" ∉ exts →
        Buffer.loop_points b exts reg v0 v1
          = ([Event.extensionQuery "AL_SOFT_loop_points"],
             Outcome.err (AllenError.missingExtension "AL_SOFT_loop_points"))
      ∧ Buffer.set_loop_points b exts reg v0 v1
          = ([Event.extensionQuery "AL_SOFT_loop_points"],
             Outcome.err (AllenError.missingExtension "AL_SOFT_loop_points")))
  ∧ ("AL_SOFT_loop_points" ∈ exts →
        (Buffer.loop_points b exts reg v0 v1).fst
          = [Event.extensionQuery "AL_SOFT_loop_points", Event.acquireLock,
             Event.alGetBufferiv b.handle AL_LOOP_POINTS_SOFT, Event.checkError,
             Event.releaseLock]
      ∧ (Buffer.set_loop_points b exts reg v0 v1).fst
          = [Event.extensionQuery "AL_SOFT_loop_points", Event.acquireLock,
             Event.alBufferiv b.handle AL_LOOP_POINTS_SOFT v0 v1, Event.checkError,
             Event.releaseLock]
      ∧ (reg = none →
          (Buffer.loop_points b exts reg v0 v1).snd = Outcome.ok (v0, v1))) := by
  constructor
  · intro h
    constructor <;>
      simp [Buffer.loop_points, Buffer.set_loop_points, check_al_extension, h]
  · intro h
    refine ⟨?_, ?_, ?_⟩
    · simp [Buffer.loop_points, check_al_extension, check_al_error, h]
    · simp [Buffer.set_loop_points, check_al_extension, check_al_error, h]
    · intro hr
      subst hr
      simp [Buffer.loop_points, check_al_extension, check_al_error, h]

/-- Claim C5, witness: the absent case at an empty capability set and the
present case at a singleton one, at concrete inputs. -/
theorem C5_loop_points_gate_witness :
    Buffer.loop_points ⟨5, 1⟩ [] (some 40961) 0 0
      = ([Event.extensionQuery "AL_SOFT_loop_points"],
         Outcome.err (AllenError.missingExtension "AL_SOFT_loop_points"))
  ∧ (Buffer.loop_points ⟨5, 1⟩ ["AL_SOFT_loop_points"] none 3 9).fst
      = [Event.extensionQuery "AL_SOFT_loop_points", Event.acquireLock,
         Event.alGetBufferiv 5 AL_LOOP_POINTS_SOFT, Event.checkError,
         Event.releaseLock]
  ∧ (Buffer.loop_points ⟨5, 1⟩ ["AL_SOFT_loop_points"] none 3 9).snd
      = Outcome.ok (3, 9) :=
  ⟨((C5_loop_points_gate ⟨5, 1⟩ [] (some 40961) 0 0).1 (by decide)).1,
   ((C5_loop_points_gate ⟨5, 1⟩ ["AL_SOFT_loop_points"] none 3 9).2 (by decide)).1,
   ((C5_loop_points_gate ⟨5, 1⟩ ["AL_SOFT_loop_points"] none 3 9).2 (by decide)).2.2 rfl⟩

/-- Claim C6: `new` requests exactly one handle allocation (`alGenBuffers`
with count 1); if the error register is set after the call it returns the
error translated from the register (the allocation failure) and constructs
no `Buffer`; otherwise it returns a `Buffer` owning the fresh handle and the
shared context. -/
theorem C6_new_allocation (ctx h : Nat) (reg : Option Nat) :
    genRequests (Buffer.new ctx h reg).fst = [1]
  ∧ (∀ c, reg = some c →
      (Buffer.new ctx h reg).snd = Outcome.err (AllenError.al c))
  ∧ (reg = none →
      (Buffer.new ctx h reg).snd = Outcome.ok { handle := h, context := ctx }) := by
  refine ⟨?_, ?_, ?_⟩
  · simp [Buffer.new, check_al_error, genRequests]
  · intro c hc
    subst hc
    simp [Buffer.new, check_al_error]
  · intro hr
    subst hr
    simp [Buffer.new, check_al_error]

/-- Claim C6, witness: a failed and a successful allocation at concrete
inputs. -/
theorem C6_new_allocation_witness :
    genRequests (Buffer.new 3 9 (some 40963)).fst = [1]
  ∧ (Buffer.new 3 9 (some 40963)).snd = Outcome.err (AllenError.al 40963)
  ∧ (Buffer.new 3 9 none).snd = Outcome.ok { handle := 9, context := 3 } :=
  ⟨(C6_new_allocation 3 9 (some 40963)).1,
   (C6_new_allocation 3 9 (some 40963)).2.1 40963 rfl,
   (C6_new_allocation 3 9 none).2.2 rfl⟩

/-- The Rust `usize`-to-`i32` cast is the identity below `2^31`. -/
theorem i32_of_usize_eq (n : Nat) (h : n < 2 ^ 31) : i32_of_usize n = (n : Int) := by
  have h32 : n % 2 ^ 32 = n := Nat.mod_eq_of_lt (by omega)
  unfold i32_of_usize
  rw [h32, if_pos h]

/-- A payload's byte size is its element count times its element width. -/
theorem size_eq_count_mul_width (d : BufferData) :
    d.size = elemCount d * elemWidth d := by
  cases d <;> simp [BufferData.size, elemCount, elemWidth, Nat.mul_comm]

/-- Claim C7, counterexample: on an 8-bit mono payload of `2^31` elements
(`2^31` bytes), the source's `data.size() as i32` cast wraps and the native
upload call receives byte length `-(2^31)`, while element count times
element width is `2^31` — the two are different integers.  So the byte
length is not `count * width` for every payload. -/
theorem C7_counterexample :
    uploadArgs (Buffer.data ⟨7, 1⟩ [] none (BufferData.I8 ⟨100, 2 ^ 31⟩)
        Channels.Mono 44100).fst
      = [(7, ALFormat.MONO8, 100, -(2 ^ 31), 44100)]
  ∧ (elemCount (BufferData.I8 ⟨100, 2 ^ 31⟩)
      * elemWidth (BufferData.I8 ⟨100, 2 ^ 31⟩) : Nat) = 2 ^ 31
  ∧ (((2 ^ 31 : Nat) : Int) == (-(2 ^ 31) : Int)) = false := by
  refine ⟨?_, by decide, by decide⟩
  simp [Buffer.data, Buffer.resolve_format, check_al_error, uploadArgs,
    i32_of_usize, BufferData.size, BufferData.ptr]

/-- Claim C7 (amended): whenever format resolution succeeds, `data()`
issues exactly one native upload call, carrying the buffer's handle, the
resolved format code, the payload's base pointer, the total byte length —
element count times element width (1 for I8, 2 for I16, 4 for F32, 8 for
F64), truncated by the source's `usize`-to-`i32` cast, which wraps for
byte sizes of `2^31` and above — and the given sample rate. -/
theorem C7_upload_args (b : Buffer) (exts : List String) (reg : Option Nat)
    (d : BufferData) (ch : Channels) (rate : Int) (fmt : ALFormat)
    (hfmt : (Buffer.resolve_format exts d ch).snd = Outcome.ok fmt) :
    uploadArgs (Buffer.data b exts reg d ch rate).fst
      = [(b.handle, fmt, d.ptr, i32_of_usize (elemCount d * elemWidth d), rate)] := by
  cases d with
  | I8 s =>
      cases ch <;>
        (simp only [Buffer.resolve_format, Outcome.ok.injEq] at hfmt; subst hfmt;
         simp only [Buffer.data, Buffer.resolve_format, check_al_error];
         rw [size_eq_count_mul_width];
         simp [uploadArgs])
  | I16 s =>
      cases ch <;>
        (simp only [Buffer.resolve_format, Outcome.ok.injEq] at hfmt; subst hfmt;
         simp only [Buffer.data, Buffer.resolve_format, check_al_error];
         rw [size_eq_count_mul_width];
         simp [uploadArgs])
  | F32 s =>
      by_cases hm : "AL_EXT_float32" ∈ exts
      · cases ch <;>
          (simp only [Buffer.resolve_format, check_al_extension, hm, if_true,
             Outcome.ok.injEq] at hfmt; subst hfmt;
           simp only [Buffer.data, Buffer.resolve_format, check_al_extension,
             check_al_error, hm, if_true];
           rw [size_eq_count_mul_width];
           simp [uploadArgs])
      · simp [Buffer.resolve_format, check_al_extension, hm] at hfmt
  | F64 s =>
      by_cases hm : "AL_double" ∈ exts
      · cases ch <;>
          (simp only [Buffer.resolve_format, check_al_extension, hm, if_true,
             Outcome.ok.injEq] at hfmt; subst hfmt;
           simp only [Buffer.data, Buffer.resolve_format, check_al_extension,
             check_al_error, hm, if_true];
           rw [size_eq_count_mul_width];
           simp [uploadArgs])
      · simp [Buffer.resolve_format, check_al_extension, hm] at hfmt

/-- Claim C7 (amended), witness: a concrete 16-bit stereo upload of 4
elements (8 bytes, below the wrap point so the cast is the identity) at
44100 Hz. -/
theorem C7_upload_args_witness :
    uploadArgs (Buffer.data ⟨7, 1⟩ [] none (BufferData.I16 ⟨100, 4⟩)
        Channels.Stereo 44100).fst
      = [(7, ALFormat.STEREO16, 100, (8 : Int), 44100)] := by
  have h := C7_upload_args ⟨7, 1⟩ [] none (BufferData.I16 ⟨100, 4⟩)
    Channels.Stereo 44100 ALFormat.STEREO16 (by decide)
  simpa [elemCount, elemWidth, i32_of_usize] using h

/-- Claim C8: dropping a `Buffer` issues exactly one native release call,
with count 1 and the owned handle; when the error register is set afterwards
a warning diagnostic is printed and nothing is propagated (the destructor's
return type is `Unit` — it cannot fail the surrounding computation). -/
theorem C8_drop_release (b : Buffer) (reg : Option Nat) :
    deleteRequests (Buffer.drop b reg).fst = [(1, b.handle)]
  ∧ (Buffer.drop b reg).fst
      = [Event.alDeleteBuffers 1 b.handle, Event.checkError]
          ++ (if reg.isSome then [Event.printWarning] else []) := by
  cases reg <;> simp [Buffer.drop, check_al_error, deleteRequests]

/-- Claim C9: the `Channels` property read decodes only the native integers
0 (Mono) and 1 (Stereo); any other integer written by the native getter
makes it panic through `unwrap` on the failed enum decode, rather than
return a distinct invariant-violation error. -/
theorem C9_channels_get_totality (b : Buffer) (p n : Int) :
    (Buffer.get_channels b none p 0).snd = Outcome.ok Channels.Mono
  ∧ (Buffer.get_channels b none p 1).snd = Outcome.ok Channels.Stereo
  ∧ (n ≠ 0 → n ≠ 1 → (Buffer.get_channels b none p n).snd
      = Outcome.panics "unwrap on None") := by
  refine ⟨?_, ?_, ?_⟩
  · simp [Buffer.get_channels, Buffer.get_i32, check_al_error, Channels.from_i32]
  · simp [Buffer.get_channels, Buffer.get_i32, check_al_error, Channels.from_i32]
  · intro h0 h1
    have hnone : Channels.from_i32 n = none := by
      unfold Channels.from_i32
      split
      · simp_all
      · simp_all
      · rfl
    simp [Buffer.get_channels, Buffer.get_i32, check_al_error, hnone]

/-- Claim C9, witness: the native getter writing 5 makes the `Channels`
read panic. -/
theorem C9_channels_get_totality_witness :
    (Buffer.get_channels ⟨5, 1⟩ none 260 5).snd = Outcome.panics "unwrap on None" :=
  (C9_channels_get_totality ⟨5, 1⟩ 260 5).2.2 (by decide) (by decide)

/-- Claim C10: with an I8 or I16 payload, `data()` performs no capability
query at all and can never return a missing-extension error, whatever the
context's extension list and the register contents are. -/
theorem C10_int_payload_no_gate (b : Buffer) (exts : List String) (reg : Option Nat)
    (s : Slice) (ch : Channels) (rate : Int) :
    ((Buffer.data b exts reg (BufferData.I8 s) ch rate).snd.isMissingExt = false
      ∧ (Buffer.data b exts reg (BufferData.I8 s) ch rate).fst.any Event.isExtQuery
          = false)
  ∧ ((Buffer.data b exts reg (BufferData.I16 s) ch rate).snd.isMissingExt = false
      ∧ (Buffer.data b exts reg (BufferData.I16 s) ch rate).fst.any Event.isExtQuery
          = false) := by
  refine ⟨⟨?_, ?_⟩, ?_, ?_⟩ <;> cases ch <;> cases reg <;>
    simp [Buffer.data, Buffer.resolve_format, check_al_error,
      Outcome.isMissingExt, Event.isExtQuery]

end Allen
